import Mathlib

/-!
# Verification of the obs-netint-t4xx encoder plug-in core

Shallow embedding of the parts of `src/netint-encoder.c`,
`src/netint-libxcoder.c` and `src/netint-libxcoder-shim.h` that the
specification's claims are about:

* the x86-64 (LP64) layout of the ABI structs declared in the shim header,
  mirroring its compile-time `_Static_assert` size checks;
* the dynamic loader `ni_libxcoder_open` (which symbols are required,
  which optional, and what can make it fail);
* the parameter-setting sequence of `netint_create` (rate control, profile,
  GOP preset) and the keyframe-interval derivation;
* the internal-pointer verification after `ni_logan_encode_init`;
* `netint_get_extra_data`'s bounded header poll;
* `netint_log_error`'s counter updates;
* a step semantics for `netint_encode` (synchronous receive, queue pop,
  single-frame batch send, flush) and for the EOS block of `netint_destroy`,
  with the frames delivered to the device recorded as a trace.

SDK calls are opaque: their outcomes are inputs (environment records), and
the embedding records which frames the device accepts and in what order.
-/

namespace NetintT4xx

/-! ## C struct layout (LP64), for the shim header's size assertions

`src/netint-libxcoder-shim.h` ends with `_Static_assert`s that
`sizeof(ni_logan_session_data_io_t) == 416` and
`sizeof(ni_logan_enc_context_t) == 688`.  We compute those sizes from the
declared field sequences under the standard System V x86-64 rules:
each field is placed at the next offset aligned to its alignment, the
struct size is the end offset rounded up to the struct alignment, and a
union's size is its largest member size rounded up to the largest member
alignment. -/

/-- Round `off` up to the next multiple of `a` (C field placement). -/
def alignTo (off a : Nat) : Nat := ((off + a - 1) / a) * a

/-- Size and alignment of a C type on LP64. -/
structure CType where
  size : Nat
  align : Nat
deriving DecidableEq, Repr

/-- `uint8_t` / `char`. -/
def cu8 : CType := ⟨1, 1⟩

/-- `uint16_t`. -/
def cu16 : CType := ⟨2, 2⟩

/-- `uint32_t` / `unsigned int`. -/
def cu32 : CType := ⟨4, 4⟩

/-- `int` / C enum. -/
def cint : CType := ⟨4, 4⟩

/-- `long long` / `int64_t` / `uint64_t`. -/
def ci64 : CType := ⟨8, 8⟩

/-- Any pointer on LP64. -/
def cptr : CType := ⟨8, 8⟩

/-- A C array `t[n]`. -/
def carr (t : CType) (n : Nat) : CType := ⟨t.size * n, t.align⟩

/-- Struct alignment: the largest field alignment (1 for an empty struct). -/
def structAlign (fs : List CType) : Nat := fs.foldl (fun a f => max a f.align) 1

/-- Struct size: place the fields in order, then round the end offset up to
the struct alignment. -/
def structSize (fs : List CType) : Nat :=
  alignTo (fs.foldl (fun off f => alignTo off f.align + f.size) 0) (structAlign fs)

/-- A struct with the given fields, as a `CType` usable as a nested field. -/
def cstruct (fs : List CType) : CType := ⟨structSize fs, structAlign fs⟩

/-- A C union of the given member types: largest size rounded up to the
largest alignment. -/
def cunion (ts : List CType) : CType :=
  let a := ts.foldl (fun m t => max m t.align) 1
  ⟨alignTo (ts.foldl (fun m t => max m t.size) 0) a, a⟩

/-- Field sequence of `ni_logan_frame_t`
(`src/netint-libxcoder-shim.h:153-225`), in declaration order. -/
def niLoganFrameFields : List CType :=
  [cint,                                  -- src_codec (enum)
   ci64, ci64,                            -- dts, pts
   cu32, cu32, cu32, cu32, cu32, cu32,    -- end_of_stream .. video_orig_height
   cu32, cu32, cu32, cu32,                -- crop_top .. crop_right
   cu16, cu8, cu8,                        -- force_headers, use_cur_src_as_long_term_pic, use_long_term_ref
   cint, cint, cu32,                      -- force_key_frame, ni_logan_pict_type (enum), sei_total_len
   cu32, cu32, cu32, cu32, cu32, cu32, cu32,
   cu32, cu32, cu32, cu32, cu32, cu32, cu32,  -- 14 sei/vui offset+len fields
   cu32, cu32, cu32,                      -- roi_len, reconf_len, extra_data_len
   cu16, cu32,                            -- force_pic_qp, frame_chunk_idx
   carr cptr 4, carr cu32 4,              -- p_data[4], data_len[4]
   cptr, cu32,                            -- p_buffer, buffer_size
   cptr, cu8,                             -- dec_buf, preferred_characteristics_data_len
   cptr, cu16, cint,                      -- p_custom_sei, bit_depth, flags
   carr cptr 16, cint,                    -- aux_data[16], nb_aux_data
   cu8, cu8, cu8, cint,                   -- color_primaries, color_trc, color_space, video_full_range_flag
   cu8, cu16, cu16,                       -- aspect_ratio_idc, sar_width, sar_height
   cu32, cu32, cu8]                       -- vui_num_units_in_tick, vui_time_scale, separate_metadata

/-- Field sequence of `ni_logan_packet_t`
(`src/netint-libxcoder-shim.h:230-253`), in declaration order. -/
def niLoganPacketFields : List CType :=
  [ci64, ci64, ci64,                      -- dts, pts, pos
   cu32, cu32, cu32, cu32, cu32,          -- end_of_stream, start_of_stream, video_width, video_height, frame_type
   cint,                                  -- recycle_index
   cptr, cu32, cint,                      -- p_data, data_len, sent_size
   cptr, cu32, cu32,                      -- p_buffer, buffer_size, avg_frame_qp
   cptr, cint, cint]                      -- p_all_custom_sei, len_of_sei_after_vcl, flags

/-- `ni_logan_session_data_io_t`: a struct holding one union of
`ni_logan_frame_t` and `ni_logan_packet_t`
(`src/netint-libxcoder-shim.h:261-268`). -/
def niLoganSessionDataIoType : CType :=
  cstruct [cunion [cstruct niLoganFrameFields, cstruct niLoganPacketFields]]

/-- Field sequence of `ni_logan_enc_context_t`
(`src/netint-libxcoder-shim.h:293-364`), in declaration order. -/
def niLoganEncContextFields : List CType :=
  [cptr, cint, cptr, cint, cint,          -- dev_xcoder, dev_enc_idx, dev_enc_name, keep_alive_timeout, set_high_priority
   cint, cint, cint, ci64,                -- timebase_num, timebase_den, ticks_per_frame, bit_rate
   cint, cint, cint, cint, cint,          -- width, height, ff_log_level, codec_format, pix_fmt
   cint, cint, cint, cint,                -- color_primaries, color_trc, color_space, color_range
   cint, cint,                            -- sar_num, sar_den
   cptr, cptr, cptr,                      -- p_session_ctx, p_encoder_params, p_input_fme
   niLoganSessionDataIoType,              -- output_pkt (embedded struct)
   cptr,                                  -- input_data_fifo
   cint, cptr, cint, cint, cint, cint,    -- started, p_spsPpsHdr, spsPpsHdrLen, spsPpsAttach, spsPpsArrived, firstPktArrived
   cint, cint, ci64, ci64, ci64,          -- dts_offset, reconfigCount, total_frames_received, first_frame_pts, latest_dts
   cint, cint, cint, cint,                -- orig_conf_win_top/bottom/left/right
   cptr, cint,                            -- extradata, extradata_size
   cint, cint,                            -- gotPacket, sentFrame
   cint, cint,                            -- fps_number, fps_denominator
   cint, cptr,                            -- actual_dev_enc_idx, actual_dev_name
   cint, cint, cint]                      -- eos_fme_received, encoder_flushing, encoder_eof

/-! ## Dynamic loader (`ni_libxcoder_open`, `src/netint-libxcoder.c:239-412`)

The loader opens the shared library and resolves symbols in source order.
The `RESOLVE` macro aborts loading on the first required symbol that does
not resolve; four symbols are looked up without `RESOLVE` and may be
missing.  Nothing in the loader examines struct sizes: the environment
record carries the sizes the loaded SDK generation actually uses so that
size-(in)dependence of the loader can be stated, but the code never reads
them. -/

/-- The symbols resolved through `RESOLVE` (load fails if missing), in the
order of `src/netint-libxcoder.c:354-393`. -/
def requiredSymbols : List String :=
  ["ni_logan_encode_init",
   "ni_logan_encode_params_parse",
   "ni_logan_encode_open",
   "ni_logan_encode_close",
   "ni_logan_encode_header",
   "ni_logan_device_session_context_init",
   "ni_logan_device_session_open",
   "ni_logan_device_session_close",
   "ni_logan_device_session_write",
   "ni_logan_device_session_read",
   "ni_logan_encoder_frame_buffer_alloc",
   "ni_logan_frame_buffer_free",
   "ni_logan_get_hw_yuv420p_dim",
   "ni_logan_copy_hw_yuv420p",
   "ni_logan_packet_buffer_alloc",
   "ni_logan_packet_buffer_free",
   "ni_logan_encoder_init_default_params",
   "ni_logan_encode_get_frame",
   "ni_logan_encode_reconfig_vfr",
   "ni_logan_encode_copy_frame_data",
   "ni_logan_encode_send",
   "ni_logan_encode_copy_packet_data",
   "ni_logan_encode_receive",
   "ni_logan_encoder_gop_params_set_value",
   "ni_logan_set_vui"]

/-- The symbols resolved with a bare `os_dlsym` (missing ones are tolerated):
`ni_logan_rsrc_init`, `ni_logan_rsrc_get_local_device_list`,
`ni_logan_encoder_params_set_value`, `ni_log_set_callback`
(`src/netint-libxcoder.c:386-396`). -/
def optionalSymbols : List String :=
  ["ni_logan_rsrc_init",
   "ni_logan_rsrc_get_local_device_list",
   "ni_logan_encoder_params_set_value",
   "ni_log_set_callback"]

/-- What the loader can observe and what the loaded library is like.
`sessionDataIoActualSize` / `encContextActualSize` are the struct sizes of
the SDK generation actually behind the loaded library; the loader never
reads them (there is no runtime size check in `ni_libxcoder_open`). -/
structure LoadEnv where
  libPresent : Bool
  symPresent : String → Bool
  sessionDataIoActualSize : Nat
  encContextActualSize : Nat

/-- Result of `ni_libxcoder_open`.  The source returns `false` either
because `os_dlopen` failed or because a `RESOLVE` failed (after logging
which symbol), and `true` otherwise; there is no other failure mode. -/
inductive LoadResult where
  | success
  | libNotFound
  | missingSymbol (name : String)
deriving DecidableEq, Repr

/-- `ni_libxcoder_open` (`src/netint-libxcoder.c:239-412`): open the
library, then resolve the required symbols in order, failing on the first
missing one.  Optional symbols never cause failure. -/
def ni_libxcoder_open (env : LoadEnv) : LoadResult :=
  if !env.libPresent then .libNotFound
  else
    match requiredSymbols.find? (fun s => !env.symPresent s) with
    | some s => .missingSymbol s
    | none => .success

/-! ## Encoder settings and the configuration sequence of `netint_create`

`obs_data_get_string` never returns a null pointer (missing keys yield the
registered default or the empty string), so the string settings are plain
strings and the source's null checks on `ctx->rc_mode` / `ctx->profile` /
`ctx->gop_preset` are always taken. -/

/-- The OBS settings `netint_create` reads (`src/netint-encoder.c:330,371,419-425`).
`bitrate` is in kbit/s, `keyint` in seconds. -/
structure NetintSettings where
  bitrate : Int
  keyint : Int
  rc_mode : String
  profile : String
  gop_preset : String
  repeat_headers : Bool
deriving DecidableEq, Repr

/-- Keyframe interval in frames (`src/netint-encoder.c:371-375`): the
`keyint` setting in seconds, replaced by 2 when not positive, times the
frame rate.  The source computes `(int)(keyint_seconds * (fps_num /
(double)fps_den))`; for the integral frame rates the spec discusses
(`fps_den = 1`) the double computation is exact, and this model truncates
the product toward zero as the C cast does. -/
def keyintFrames (keyint : Int) (fps_num fps_den : Nat) : Nat :=
  let ks : Nat := if keyint ≤ 0 then 2 else keyint.toNat
  ks * fps_num / fps_den

/-- The SDK profile id string `netint_create` picks for the `profile`
setting (`src/netint-encoder.c:595-630`): for HEVC (`codec_type = 1`) the
id is always `"1"` (Main) whatever the setting says; for H.264 `baseline`,
`main`, `high` map to `"1"`, `"2"`, `"4"` and anything else selects no
profile parameter at all. -/
def profileIdStr (codec_type : Nat) (profile : String) : Option String :=
  if codec_type = 1 then some "1"
  else if profile = "baseline" then some "1"
  else if profile = "main" then some "2"
  else if profile = "high" then some "4"
  else none

/-- The complete sequence of `p_ni_logan_encoder_params_set_value` calls
`netint_create` makes, in order, as (name, value) pairs
(`src/netint-encoder.c:517-631`).  The whole block is guarded by the
optional symbol `ni_logan_encoder_params_set_value` having resolved
(`setterAvailable`); `bit_rate` is the kbit/s setting times 1000
(`src/netint-encoder.c:330`), `frameRate`/`frameRateDenom` are the OBS
fps numerator/denominator (`timebase_den`/`timebase_num`,
`src/netint-encoder.c:381-382,564-565`). -/
def netintParamCalls (setterAvailable : Bool) (codec_type : Nat)
    (cfg : NetintSettings) (fps_num fps_den : Nat) : List (String × String) :=
  if !setterAvailable then []
  else
    let gop_value := if cfg.gop_preset = "simple" then "2" else "5"
    let bit_rate : Int := cfg.bitrate * 1000
    [("gopPresetIdx", gop_value),
     ("RcEnable", "1"),
     ("bitrate", toString bit_rate),
     ("frameRate", toString fps_num),
     ("frameRateDenom", toString fps_den),
     ("RcInitDelay", "3000"),
     ("cbr", if cfg.rc_mode = "CBR" then "1" else "0")]
    ++ (match profileIdStr codec_type cfg.profile with
        | some id => [("profile", id)]
        | none => [])

/-! ## Internal-pointer verification after `ni_logan_encode_init`
(`src/netint-encoder.c:450-482`) -/

/-- What `ni_logan_encode_init` leaves behind: its return code and whether
each of the three internal pointers is null. -/
structure InitOutcome where
  ret : Int
  pSessionCtxNull : Bool
  pEncoderParamsNull : Bool
  inputDataFifoNull : Bool
deriving DecidableEq, Repr

/-- The create path's decision right after `ni_logan_encode_init`
(`src/netint-encoder.c:455-482`): a negative return goes to `fail`
(cleanup and `return NULL`), and so does a success return with any of
`p_session_ctx`, `p_encoder_params`, `input_data_fifo` null; only
otherwise does `netint_create` proceed.  `none` models the `goto fail`
path, which runs `netint_destroy` and returns no session. -/
def netintCreateInitCheck (o : InitOutcome) : Option Unit :=
  if o.ret < 0 then none
  else if o.pSessionCtxNull || o.pEncoderParamsNull || o.inputDataFifoNull then none
  else some ()

/-! ## Error counters (`netint_log_error`, `src/netint-encoder.c:216-231`) -/

/-- The two error counters of `struct netint_ctx`
(`src/netint-encoder.c:166-167`). -/
structure ErrorCounters where
  consecutive_errors : Nat
  total_errors : Nat
deriving DecidableEq, Repr

/-- `netint_log_error` (`src/netint-encoder.c:216-231`): increment both
counters and log; at `MAX_CONSECUTIVE_ERRORS = 5` it additionally logs a
warning but changes nothing else — no state is latched and nothing else in
`src/` ever calls this function. -/
def netint_log_error (c : ErrorCounters) : ErrorCounters :=
  { consecutive_errors := c.consecutive_errors + 1,
    total_errors := c.total_errors + 1 }

/-! ## `netint_get_extra_data` (`src/netint-encoder.c:1984-2027`)

When headers are not yet cached the function runs
`for (int i = 0; i < 50; i++) { os_sleep_ms(100); if (got_headers) break; }`
and fails if they still have not appeared.  The background receive thread
is modelled by `arrival`: the elapsed time (in ms, counted in completed
sleeps) at which it sets `got_headers`, or `none` if it never does. -/

/-- The poll loop body: sleep 100 ms, then test `got_headers`.  Returns
whether headers were seen and the total milliseconds slept.  `fuel` is the
remaining iteration count (50 at entry), `elapsed` the milliseconds slept
so far. -/
def pollHeaders (arrival : Option Nat) : Nat → Nat → Bool × Nat
  | 0, elapsed => (false, elapsed)
  | fuel + 1, elapsed =>
    let elapsed' := elapsed + 100
    if arrival.any (fun t => decide (t ≤ elapsed')) then
      (true, elapsed')
    else
      pollHeaders arrival fuel elapsed'

/-- Result of `netint_get_extra_data`: either the cached bytes with their
size, or `false` to the host. -/
inductive ExtraDataResult where
  | ok (bytes : List Nat) (size : Nat)
  | failure
deriving DecidableEq, Repr

/-- `netint_get_extra_data` (`src/netint-encoder.c:1984-2027`), paired with
the total milliseconds it sleeps.  `extra` is `ctx->extra` when already
cached (its length is `ctx->extra_size`, both set together by `bmemdup`);
`arrivedBytes` is what the worker caches if it populates the headers during
the poll. -/
def netint_get_extra_data (gotHeaders : Bool) (extra : Option (List Nat))
    (arrival : Option Nat) (arrivedBytes : List Nat) : ExtraDataResult × Nat :=
  if gotHeaders then
    match extra with
    | some bs => if bs.length = 0 then (.failure, 0) else (.ok bs bs.length, 0)
    | none => (.failure, 0)
  else
    let (found, slept) := pollHeaders arrival 50 0
    if found then
      if arrivedBytes.length = 0 then (.failure, slept)
      else (.ok arrivedBytes arrivedBytes.length, slept)
    else (.failure, slept)

/-! ## Step semantics of `netint_encode` and the destroy-path EOS

SDK outcomes are supplied as environment records; the frames the device
accepts (`ni_logan_device_session_write` returning positive) are recorded
in a trace, with the metadata fields the claims talk about. -/

/-- Net outcome of one `ni_logan_device_session_write` call together with
its retry loop (`src/netint-encoder.c:1452-1481,1595-1623,845-867`):
the device accepted the frame (eventually returned positive), the write
returned negative, or the FIFO was still full when the retries ran out. -/
inductive WriteOutcome where
  | accepted
  | error
  | fifoTimeout
deriving DecidableEq, Repr

/-- A frame as delivered to the device, with the metadata the claims are
about (`src/netint-encoder.c:1396-1407` for data frames,
`src/netint-encoder.c:1570-1577,828-836` for the EOS sentinel). -/
structure DevFrame where
  sos : Bool        -- start_of_stream
  eos : Bool        -- end_of_stream
  forceKey : Bool   -- force_key_frame
  pictType : Nat    -- ni_logan_pict_type (LOGAN_PIC_TYPE_IDR = 2, auto = 0)
deriving DecidableEq, Repr

/-- The mutable per-session state the modelled operations touch. -/
structure SessionState where
  frameCount : Nat            -- ctx->frame_count
  flushing : Bool             -- ctx->flushing
  started : Bool              -- ctx->enc.started
  gotHeaders : Bool           -- ctx->got_headers
  extra : Option (List Nat)   -- ctx->extra (ctx->extra_size is its length)
  sessionOpen : Bool          -- ctx->enc.p_session_ctx != NULL
  errors : ErrorCounters
deriving DecidableEq, Repr

/-- State of a session as `netint_create` returns it
(`src/netint-encoder.c:289-296,667,738`, with headers not generated during
init, the `GenHdrs`-disabled path the source always takes). -/
def initialSession : SessionState :=
  { frameCount := 0, flushing := false, started := false,
    gotHeaders := false, extra := none, sessionOpen := true,
    errors := ⟨0, 0⟩ }

/-- SDK outcomes for one `netint_encode` call. -/
structure EncodeEnv where
  pktBufAllocOk : Bool        -- ni_logan_packet_buffer_alloc == SUCCESS (src/netint-encoder.c:1702)
  recvSize : Int              -- ni_logan_device_session_read return (src/netint-encoder.c:1705)
  recvData : List Nat         -- bytes at sync_pkt->p_data
  recvPts : Int
  recvDts : Int
  dataAllocOk : Bool          -- bmalloc for packet->data succeeded (src/netint-encoder.c:1725)
  queuedPkt : Option (List Nat × Int × Int)  -- head of the background-thread queue, if any
  frameAllocOk : Bool         -- ni_logan_encoder_frame_buffer_alloc == SUCCESS
  write : WriteOutcome        -- device_session_write (with its retry loop)
deriving Repr

/-- What one `netint_encode` call returns to the host: a packet
(`*received = true`), no packet (`*received = false`, return `true`), or
failure (return `false`). -/
inductive EncodeResult where
  | packet (data : List Nat) (pts dts : Int)
  | noPacket
  | failure
deriving DecidableEq, Repr

/-- The single-frame batch send of `netint_encode_batch`
(`src/netint-encoder.c:1349-1504`, with `frame_buffer.capacity = 1` as set
at `src/netint-encoder.c:314` so every batch holds exactly one frame):
compute the HW dimensions, allocate the SDK frame buffer, fill metadata
(`start_of_stream`/`force_key_frame`/IDR exactly on `frame_count == 0`),
copy the planes and write.  Only an accepted write appends to the device
trace, increments `frame_count` and latches `started`. -/
def netintEncodeBatch (st : SessionState) (e : EncodeEnv) :
    SessionState × List DevFrame × EncodeResult :=
  if !e.frameAllocOk then (st, [], .failure)
  else
    match e.write with
    | .error => (st, [], .failure)
    | .fifoTimeout => (st, [], .failure)
    | .accepted =>
      let first := st.frameCount = 0
      let f : DevFrame :=
        { sos := first, eos := false, forceKey := first,
          pictType := if first then 2 else 0 }
      ({ st with frameCount := st.frameCount + 1, started := true },
       [f], .noPacket)

/-- `netint_encode_flush` (`src/netint-encoder.c:1506-1656`): a second
flush is a no-op; otherwise allocate and send the EOS sentinel
(`end_of_stream = 1`, `start_of_stream = 0`, `force_key_frame = 0`).
`ctx->flushing` is set before the send and reset on every failure path,
so it ends `true` exactly when the device accepted the sentinel. -/
def netintEncodeFlush (st : SessionState) (e : EncodeEnv) :
    SessionState × List DevFrame × EncodeResult :=
  if st.flushing then (st, [], .noPacket)
  else if !e.frameAllocOk then (st, [], .failure)
  else
    match e.write with
    | .error => (st, [], .failure)
    | .fifoTimeout => (st, [], .failure)
    | .accepted =>
      ({ st with flushing := true },
       [{ sos := false, eos := true, forceKey := false, pictType := 0 }],
       .noPacket)

/-- The part of `netint_encode` after the synchronous receive: pop the
background-thread queue (`src/netint-encoder.c:1760-1805`), and when it is
empty send the frame through the single-frame batch, or run the flush
handshake when `frame` is null (`src/netint-encoder.c:1812-1835`). -/
def netintEncodeTail (st : SessionState) (hasFrame : Bool) (e : EncodeEnv) :
    SessionState × List DevFrame × EncodeResult :=
  match e.queuedPkt with
  | some (d, pts, dts) => (st, [], .packet d pts dts)
  | none =>
    if hasFrame then netintEncodeBatch st e
    else netintEncodeFlush st e

/-- `netint_encode` (`src/netint-encoder.c:1659-1836`).  Step 1 tries a
synchronous read (`src/netint-encoder.c:1696-1758`): a packet whose size
beyond the 16-byte metadata is exactly 65 while headers are missing is
cached as extradata and not returned (execution falls through to the queue
and send/flush steps with the cache updated); any other packet is returned
to the host immediately.  Otherwise execution falls through unchanged. -/
def netint_encode (st : SessionState) (hasFrame : Bool) (e : EncodeEnv) :
    SessionState × List DevFrame × EncodeResult :=
  if e.pktBufAllocOk then
    if 16 < e.recvSize then
      if !st.gotHeaders && (e.recvSize - 16).toNat = 65 then
        -- header packet: cache and fall through (src/netint-encoder.c:1715-1720)
        netintEncodeTail
          { st with
            gotHeaders := true,
            extra := some (e.recvData.take ((e.recvSize - 16).toNat)) }
          hasFrame e
      else if e.dataAllocOk then
        -- video packet: returned to the host (src/netint-encoder.c:1722-1753)
        (st, [], .packet (e.recvData.take ((e.recvSize - 16).toNat)) e.recvPts e.recvDts)
      else netintEncodeTail st hasFrame e
    else netintEncodeTail st hasFrame e
  else netintEncodeTail st hasFrame e

/-- SDK outcomes for the EOS block of `netint_destroy`. -/
structure DestroyEnv where
  frameAllocOk : Bool
  write : WriteOutcome
deriving Repr

/-- The EOS block of `netint_destroy` (`src/netint-encoder.c:800-904`): if
the session was never flushed and is still open, build and send one EOS
sentinel; an accepted write sets `flushing` and the function then waits
(bounded) for `encoder_eof`.  Failures leave the state unchanged. -/
def netintDestroyEos (st : SessionState) (e : DestroyEnv) :
    SessionState × List DevFrame :=
  if !st.flushing && st.sessionOpen then
    if !e.frameAllocOk then (st, [])
    else
      match e.write with
      | .error => (st, [])
      | .fifoTimeout => (st, [])
      | .accepted =>
        ({ st with flushing := true },
         [{ sos := false, eos := true, forceKey := false, pictType := 0 }])
  else (st, [])

/-- One host-visible operation on a live session. -/
inductive SessionOp where
  | encode (hasFrame : Bool) (e : EncodeEnv)
  | destroy (e : DestroyEnv)

/-- Apply one operation, keeping only the device trace. -/
def applyOp (st : SessionState) : SessionOp → SessionState × List DevFrame
  | .encode hasFrame e =>
    let r := netint_encode st hasFrame e
    (r.1, r.2.1)
  | .destroy e => netintDestroyEos st e

/-- Run a sequence of operations, concatenating the device traces. -/
def runOps : SessionState → List SessionOp → SessionState × List DevFrame
  | st, [] => (st, [])
  | st, op :: ops =>
    let r := applyOp st op
    let r' := runOps r.1 ops
    (r'.1, r.2 ++ r'.2)

/-- The data frames (non-EOS) of a device trace. -/
def dataFrames (tr : List DevFrame) : List DevFrame := tr.filter (fun f => !f.eos)

/-- How many EOS sentinels a device trace contains. -/
def eosCount (tr : List DevFrame) : Nat := (tr.filter (fun f => f.eos)).length

/-! ## Shared concrete data and helper lemmas -/

/-- A benign SDK environment for `netint_encode`: no packet pending on the
synchronous read, an empty background queue, allocations succeed and the
device accepts the write. -/
def benignEncodeEnv : EncodeEnv :=
  { pktBufAllocOk := true, recvSize := 0, recvData := [], recvPts := 0, recvDts := 0,
    dataAllocOk := true, queuedPkt := none, frameAllocOk := true, write := .accepted }

/-- Total milliseconds slept by the header poll is bounded by 100 ms per
remaining iteration. -/
theorem pollHeaders_elapsed (arrival : Option Nat) :
    ∀ fuel elapsed, (pollHeaders arrival fuel elapsed).2 ≤ elapsed + 100 * fuel := by
  intro fuel
  induction fuel with
  | zero => intro e; simp [pollHeaders]
  | succ n ih =>
    intro e
    simp only [pollHeaders]
    split
    · simp
    · exact le_trans (ih (e + 100)) (by omega)

/-- The data frame `netintEncodeBatch` builds when `ctx->frame_count = n`:
start-of-stream, forced keyframe and IDR picture type exactly when `n = 0`
(`src/netint-encoder.c:1401-1407`). -/
def mkDataFrame (n : Nat) : DevFrame :=
  { sos := decide (n = 0), eos := false, forceKey := decide (n = 0),
    pictType := if n = 0 then 2 else 0 }

/-- The EOS sentinel frame (`src/netint-encoder.c:1570-1577`). -/
def eosFrame : DevFrame :=
  { sos := false, eos := true, forceKey := false, pictType := 0 }

theorem dataFrames_cons_data (n : Nat) (l : List DevFrame) :
    dataFrames (mkDataFrame n :: l) = mkDataFrame n :: dataFrames l := by
  simp [dataFrames, mkDataFrame]

theorem dataFrames_cons_eos (l : List DevFrame) :
    dataFrames (eosFrame :: l) = dataFrames l := by
  simp [dataFrames, eosFrame]

theorem eosCount_cons_data (n : Nat) (l : List DevFrame) :
    eosCount (mkDataFrame n :: l) = eosCount l := by
  simp [eosCount, mkDataFrame]

theorem eosCount_cons_eos (l : List DevFrame) :
    eosCount (eosFrame :: l) = eosCount l + 1 := by
  simp [eosCount, eosFrame]

/-- Trichotomy for the tail of `netint_encode`: it delivers nothing to the
device, or one data frame built from the current `frame_count`
(incrementing it), or — only when `flushing` was still false — one EOS
sentinel, latching `flushing`. -/
theorem netintEncodeTail_cases (st : SessionState) (hasFrame : Bool) (e : EncodeEnv) :
    ((netintEncodeTail st hasFrame e).2.1 = [] ∧
      (netintEncodeTail st hasFrame e).1.frameCount = st.frameCount ∧
      (netintEncodeTail st hasFrame e).1.flushing = st.flushing) ∨
    ((netintEncodeTail st hasFrame e).2.1 = [mkDataFrame st.frameCount] ∧
      (netintEncodeTail st hasFrame e).1.frameCount = st.frameCount + 1 ∧
      (netintEncodeTail st hasFrame e).1.flushing = st.flushing) ∨
    ((netintEncodeTail st hasFrame e).2.1 = [eosFrame] ∧
      (netintEncodeTail st hasFrame e).1.frameCount = st.frameCount ∧
      (netintEncodeTail st hasFrame e).1.flushing = true ∧ st.flushing = false) := by
  unfold netintEncodeTail netintEncodeBatch netintEncodeFlush
  repeat' split
  all_goals simp_all [mkDataFrame, eosFrame]

/-- The same trichotomy for a whole `netint_encode` call: the synchronous
receive never touches `frame_count` or `flushing`, so every case reduces
to the tail. -/
theorem netint_encode_cases (st : SessionState) (hasFrame : Bool) (e : EncodeEnv) :
    ((netint_encode st hasFrame e).2.1 = [] ∧
      (netint_encode st hasFrame e).1.frameCount = st.frameCount ∧
      (netint_encode st hasFrame e).1.flushing = st.flushing) ∨
    ((netint_encode st hasFrame e).2.1 = [mkDataFrame st.frameCount] ∧
      (netint_encode st hasFrame e).1.frameCount = st.frameCount + 1 ∧
      (netint_encode st hasFrame e).1.flushing = st.flushing) ∨
    ((netint_encode st hasFrame e).2.1 = [eosFrame] ∧
      (netint_encode st hasFrame e).1.frameCount = st.frameCount ∧
      (netint_encode st hasFrame e).1.flushing = true ∧ st.flushing = false) := by
  unfold netint_encode
  split
  · split
    · split
      · exact netintEncodeTail_cases _ hasFrame e
      · split
        · left
          exact ⟨rfl, rfl, rfl⟩
        · exact netintEncodeTail_cases st hasFrame e
    · exact netintEncodeTail_cases st hasFrame e
  · exact netintEncodeTail_cases st hasFrame e

/-- The same trichotomy for the destroy-path EOS block (it never sends a
data frame, so only the first and third cases occur). -/
theorem applyOp_cases (st : SessionState) (op : SessionOp) :
    ((applyOp st op).2 = [] ∧ (applyOp st op).1.frameCount = st.frameCount ∧
      (applyOp st op).1.flushing = st.flushing) ∨
    ((applyOp st op).2 = [mkDataFrame st.frameCount] ∧
      (applyOp st op).1.frameCount = st.frameCount + 1 ∧
      (applyOp st op).1.flushing = st.flushing) ∨
    ((applyOp st op).2 = [eosFrame] ∧
      (applyOp st op).1.frameCount = st.frameCount ∧
      (applyOp st op).1.flushing = true ∧ st.flushing = false) := by
  cases op with
  | encode hasFrame e => exact netint_encode_cases st hasFrame e
  | destroy e =>
    simp only [applyOp, netintDestroyEos]
    repeat' split
    all_goals simp_all [eosFrame]

/-- The data frames of a well-formed trace started at frame count `n` are
exactly `mkDataFrame n, mkDataFrame (n+1), …` in order. -/
def dataSpec : Nat → List DevFrame → Prop
  | _, [] => True
  | n, f :: l => f = mkDataFrame n ∧ dataSpec (n + 1) l

theorem dataSpec_get : ∀ (l : List DevFrame) (n : Nat), dataSpec n l →
    ∀ i (h : i < l.length), l.get ⟨i, h⟩ = mkDataFrame (n + i) := by
  intro l
  induction l with
  | nil =>
    intro n _ i h
    simp at h
  | cons f l ihl =>
    intro n hspec i h
    obtain ⟨hf, hrest⟩ := hspec
    cases i with
    | zero => simpa using hf
    | succ j =>
      rw [List.get_cons_succ]
      have hj : j < l.length := by
        simp only [List.length_cons] at h
        omega
      rw [ihl (n + 1) hrest j hj]
      congr 1
      omega

/-- Trace invariant of `runOps`, generalized over the start state: the data
frames delivered from a state with `frame_count = n` are
`mkDataFrame n, mkDataFrame (n+1), …`; at most one EOS is delivered and
none at all once `flushing` holds; and `flushing` afterwards records
whether an EOS has ever been delivered. -/
theorem runOps_spec (ops : List SessionOp) : ∀ st : SessionState,
    dataSpec st.frameCount (dataFrames (runOps st ops).2) ∧
    (runOps st ops).1.frameCount =
      st.frameCount + (dataFrames (runOps st ops).2).length ∧
    eosCount (runOps st ops).2 + (if st.flushing then 1 else 0) ≤ 1 ∧
    (runOps st ops).1.flushing =
      (st.flushing || decide (1 ≤ eosCount (runOps st ops).2)) := by
  induction ops with
  | nil =>
    intro st
    refine ⟨by simp [runOps, dataFrames, dataSpec], by simp [runOps, dataFrames], ?_, ?_⟩
    · simp only [runOps, eosCount, List.filter_nil, List.length_nil]
      split <;> omega
    · simp [runOps, eosCount]
  | cons op ops ih =>
    intro st
    have hrun : runOps st (op :: ops) =
        ((runOps (applyOp st op).1 ops).1,
         (applyOp st op).2 ++ (runOps (applyOp st op).1 ops).2) := rfl
    obtain ⟨ih1, ih2, ih3, ih4⟩ := ih (applyOp st op).1
    rcases applyOp_cases st op with ⟨h2, hf, hfl⟩ | ⟨h2, hf, hfl⟩ | ⟨h2, hf, hfl, hfl0⟩
    · rw [hrun, h2]
      simp only [List.nil_append]
      rw [hf] at ih1 ih2
      rw [hfl] at ih3 ih4
      exact ⟨ih1, ih2, ih3, ih4⟩
    · rw [hrun, h2]
      simp only [List.singleton_append]
      rw [hf] at ih1 ih2
      rw [hfl] at ih3 ih4
      refine ⟨?_, ?_, ?_, ?_⟩
      · rw [dataFrames_cons_data]
        exact ⟨rfl, ih1⟩
      · rw [dataFrames_cons_data, List.length_cons]
        omega
      · simp only [eosCount_cons_data]
        exact ih3
      · simp only [eosCount_cons_data]
        exact ih4
    · rw [hrun, h2]
      simp only [List.singleton_append]
      rw [hf] at ih1 ih2
      rw [hfl] at ih3 ih4
      refine ⟨?_, ?_, ?_, ?_⟩
      · rw [dataFrames_cons_eos]
        exact ih1
      · rw [dataFrames_cons_eos]
        exact ih2
      · have h3 : eosCount (runOps (applyOp st op).1 ops).2 = 0 := by
          simp at ih3
          omega
        rw [eosCount_cons_eos, hfl0, h3]
        simp
      · have hr : (runOps (applyOp st op).1 ops).1.flushing = true := by
          rw [ih4]
          simp
        rw [hr, hfl0]
        simp only [eosCount_cons_eos]
        have h1 : 1 ≤ eosCount (runOps (applyOp st op).1 ops).2 + 1 := Nat.le_add_left 1 _
        simp [h1]

/-! ## Claim theorems -/

/-- **C1** (the error state machine is not wired up): evaluating the
embedded code at the claim's failing input.  `netint_log_error` does
increment both counters, but with `consecutive_errors` already at the
threshold `MAX_CONSECUTIVE_ERRORS = 5`, `netint_encode` still performs the
synchronous SDK read, still sends the frame to the device (the trace shows
the accepted write) and returns success — there is no `Failed` latch and no
fail-fast path; `netint_log_error` itself is never called from any SDK
call site in `src/`. -/
theorem netint_encode_ignores_error_threshold :
    netint_log_error ⟨4, 9⟩ = ⟨5, 10⟩ ∧
    netint_encode { initialSession with errors := ⟨5, 10⟩ } true benignEncodeEnv =
      ({ initialSession with errors := ⟨5, 10⟩, frameCount := 1, started := true },
       [{ sos := true, eos := false, forceKey := true, pictType := 2 }],
       .noPacket) := by
  constructor <;> rfl

/-- **C2** counterexample: with `rc_mode = "DISABLED"` (the spec's
ConstantQp) the emitted parameter calls still contain `RcEnable=1` (never
`RcEnable=0`) and contain no `intraQP`, `minQp`, `maxQp` or
`losslessEnable` call at all — `netint_create` has no ConstantQp branch
(`src/netint-encoder.c:554-590`). -/
theorem constantQp_emits_RcEnable_one :
    (("RcEnable", "1") ∈
      netintParamCalls true 1 ⟨6000, 2, "DISABLED", "main", "default", true⟩ 30 1) ∧
    ((netintParamCalls true 1 ⟨6000, 2, "DISABLED", "main", "default", true⟩ 30 1).contains
      ("RcEnable", "0") = false) ∧
    ((netintParamCalls true 1 ⟨6000, 2, "DISABLED", "main", "default", true⟩ 30 1).all
      (fun p => p.1 != "intraQP" && p.1 != "minQp" && p.1 != "maxQp" &&
        p.1 != "losslessEnable") = true) := by
  refine ⟨by decide, by decide, by decide⟩

/-- **C2** (amended): for every session — whatever `rc_mode` says,
including `DISABLED` — `netint_create` emits `RcEnable=1`, the bitrate in
bps, the frame-rate pair, `RcInitDelay=3000`, and `cbr` = 1 iff CBR else 0;
the only parameter names it ever sets are `gopPresetIdx`, `RcEnable`,
`bitrate`, `frameRate`, `frameRateDenom`, `RcInitDelay`, `cbr`, `profile`
(so in particular never `intraQP`/`minQp`/`maxQp`/`losslessEnable`). -/
theorem rate_control_param_calls (codec_type : Nat) (cfg : NetintSettings)
    (fps_num fps_den : Nat) :
    (("RcEnable", "1") ∈ netintParamCalls true codec_type cfg fps_num fps_den) ∧
    (("bitrate", toString (cfg.bitrate * 1000)) ∈
      netintParamCalls true codec_type cfg fps_num fps_den) ∧
    (("frameRate", toString fps_num) ∈ netintParamCalls true codec_type cfg fps_num fps_den) ∧
    (("frameRateDenom", toString fps_den) ∈
      netintParamCalls true codec_type cfg fps_num fps_den) ∧
    (("RcInitDelay", "3000") ∈ netintParamCalls true codec_type cfg fps_num fps_den) ∧
    (("cbr", if cfg.rc_mode = "CBR" then "1" else "0") ∈
      netintParamCalls true codec_type cfg fps_num fps_den) ∧
    ((netintParamCalls true codec_type cfg fps_num fps_den).all
      (fun p => p.1 == "gopPresetIdx" || p.1 == "RcEnable" || p.1 == "bitrate" ||
        p.1 == "frameRate" || p.1 == "frameRateDenom" || p.1 == "RcInitDelay" ||
        p.1 == "cbr" || p.1 == "profile") = true) := by
  cases h : profileIdStr codec_type cfg.profile <;>
    simp [netintParamCalls, h]

/-- **C3** counterexample: `ni_libxcoder_open` performs no struct-size
check at load time: on a library whose `session_data_io` measures 400
bytes (≠ 416) it still loads successfully, with no `AbiMismatch` failure
mode anywhere in its result type (`src/netint-libxcoder.c:239-412`). -/
theorem loader_ignores_struct_sizes :
    ni_libxcoder_open ⟨true, fun _ => true, 400, 688⟩ = .success := rfl

set_option maxRecDepth 20000 in
/-- **C3** (amended): the 416/688-byte guards are compile-time
`_Static_assert`s on the shim header's own declared layout — which indeed
measures 416 (`ni_logan_session_data_io_t`) and 688
(`ni_logan_enc_context_t`) bytes under LP64 rules, so the plugin compiles —
while the runtime loader's outcome is independent of the sizes of the
structs actually behind the loaded library. -/
theorem shim_struct_sizes :
    niLoganSessionDataIoType.size = 416 ∧
    structSize niLoganEncContextFields = 688 ∧
    ∀ (lib : Bool) (sym : String → Bool) (s₁ s₂ t₁ t₂ : Nat),
      ni_libxcoder_open ⟨lib, sym, s₁, t₁⟩ = ni_libxcoder_open ⟨lib, sym, s₂, t₂⟩ :=
  ⟨by decide, by decide, fun _ _ _ _ _ _ => rfl⟩

/-- **C4** counterexample: the keyframe interval is never handed to the
SDK.  `keyint = 1 s` and `keyint = 20 s` at 60 fps give
`keyframe_interval_frames` 60 and 1200, yet `netint_create` makes exactly
the same parameter-setter calls for both settings (the GOP-parameter API
is never invoked and `ctx->keyint_frames` is only computed and logged,
`src/netint-encoder.c:375-377,527-540`). -/
theorem keyint_not_passed_to_sdk :
    keyintFrames 1 60 1 = 60 ∧ keyintFrames 20 60 1 = 1200 ∧
    netintParamCalls true 0 ⟨6000, 1, "CBR", "high", "default", true⟩ 60 1 =
      netintParamCalls true 0 ⟨6000, 20, "CBR", "high", "default", true⟩ 60 1 :=
  ⟨rfl, rfl, rfl⟩

/-- **C5** counterexample: a library missing only
`ni_logan_encoder_params_set_value` (the parameter setter by name) still
loads successfully — that symbol is looked up without `RESOLVE`
(`src/netint-libxcoder.c:391`), so it is optional, not required. -/
theorem params_setter_optional :
    ni_libxcoder_open
      ⟨true, fun s => !(s == "ni_logan_encoder_params_set_value"), 416, 688⟩ =
      .success := by decide

/-- **C5** (amended): loading fails with a missing-symbol error exactly
when the library is present but some symbol of `requiredSymbols` does not
resolve; that set contains the GOP-parameter setter (and the VUI setter,
session write/read, buffer alloc/free, etc.), while the parameter setter
by name is among the optional symbols and its absence never fails the
load. -/
theorem required_symbol_set (env : LoadEnv) :
    ("ni_logan_encoder_gop_params_set_value" ∈ requiredSymbols) ∧
    ("ni_logan_encoder_params_set_value" ∈ optionalSymbols) ∧
    ((requiredSymbols.contains "ni_logan_encoder_params_set_value") = false) ∧
    (ni_libxcoder_open env = .success ↔
      env.libPresent = true ∧ ∀ s ∈ requiredSymbols, env.symPresent s = true) := by
  refine ⟨by decide, by decide, by decide, ?_⟩
  constructor
  · intro hs
    have hl : env.libPresent = true := by
      cases hb : env.libPresent
      · simp [ni_libxcoder_open, hb] at hs
      · rfl
    refine ⟨hl, fun s hmem => ?_⟩
    cases hb : env.symPresent s
    · have hsome : (requiredSymbols.find? (fun t => !env.symPresent t)).isSome := by
        rw [List.find?_isSome]
        exact ⟨s, hmem, by simp [hb]⟩
      obtain ⟨t, ht⟩ := Option.isSome_iff_exists.mp hsome
      simp [ni_libxcoder_open, hl, ht] at hs
    · rfl
  · rintro ⟨hl, hall⟩
    have hnone : requiredSymbols.find? (fun t => !env.symPresent t) = none := by
      rw [List.find?_eq_none]
      intro x hx
      simp [hall x hx]
    simp [ni_libxcoder_open, hl, hnone]

/-- **C5** witness: the amended theorem applied to a concrete environment
with every symbol present. -/
theorem required_symbol_set_witness :
    "ni_logan_encoder_gop_params_set_value" ∈ requiredSymbols :=
  (required_symbol_set ⟨true, fun _ => true, 416, 688⟩).1

/-- **C7**: if `ni_logan_encode_init` reports success but any of
`p_session_ctx`, `p_encoder_params`, `input_data_fifo` is null,
`netint_create` takes the `goto fail` path (cleanup via `netint_destroy`,
`return NULL`) and no session is produced
(`src/netint-encoder.c:455-482`). -/
theorem create_rejects_null_internals (o : InitOutcome) (hret : 0 ≤ o.ret)
    (hnull : o.pSessionCtxNull = true ∨ o.pEncoderParamsNull = true ∨
      o.inputDataFifoNull = true) :
    netintCreateInitCheck o = none := by
  unfold netintCreateInitCheck
  rw [if_neg (by omega)]
  rcases hnull with h | h | h <;> simp [h]

/-- **C7** witness: init succeeded (`ret = 0`) but the input FIFO pointer
is null; create refuses to proceed. -/
theorem create_rejects_null_internals_witness :
    netintCreateInitCheck ⟨0, false, false, true⟩ = none :=
  create_rejects_null_internals ⟨0, false, false, true⟩ (by decide)
    (Or.inr (Or.inr rfl))

/-- **C8**: the header wait in `netint_get_extra_data` is a bounded poll —
at most 50 iterations of 100 ms (≤ 5000 ms total slept), failing if the
worker never populates the headers — and once headers are cached the
function returns the cached bytes with their size
(`src/netint-encoder.c:1984-2027`). -/
theorem get_extra_data_bounded_poll :
    (∀ arrival : Option Nat, (pollHeaders arrival 50 0).2 ≤ 5000) ∧
    (∀ (extra : Option (List Nat)) (ab : List Nat),
      netint_get_extra_data false extra none ab = (.failure, 5000)) ∧
    (∀ (bs : List Nat) (arrival : Option Nat) (ab : List Nat), 0 < bs.length →
      netint_get_extra_data true (some bs) arrival ab = (.ok bs bs.length, 0)) := by
  refine ⟨fun a => ?_, fun extra ab => rfl, fun bs arrival ab h => ?_⟩
  · simpa using pollHeaders_elapsed a 50 0
  · simp [netint_get_extra_data, Nat.pos_iff_ne_zero.mp h]

/-- **C8** witness: the cached-headers case at a concrete cache. -/
theorem get_extra_data_bounded_poll_witness :
    netint_get_extra_data true (some [1, 2, 3]) none [] = (.ok [1, 2, 3] 3, 0) :=
  get_extra_data_bounded_poll.2.2 [1, 2, 3] none [] (by decide)

/-- **C9** counterexample: for HEVC the `main10` profile is mapped to SDK
id `"1"`, not `"2"` — `netint_create` always selects Main (id 1) for
H.265 regardless of the profile setting
(`src/netint-encoder.c:597-613`). -/
theorem hevc_main10_maps_to_one :
    profileIdStr 1 "main10" = some "1" ∧
    (decide (profileIdStr 1 "main10" = some "2")) = false := by
  refine ⟨rfl, by decide⟩

/-- **C9** (amended): the H.264 mappings are as claimed (`baseline → 1`,
`main → 2`, `high → 4`, anything else sets no profile parameter), but for
HEVC every profile string — `main`, `main10` or anything else — maps to
id `"1"` (Main). -/
theorem profile_id_mapping (p : String) :
    profileIdStr 0 "baseline" = some "1" ∧
    profileIdStr 0 "main" = some "2" ∧
    profileIdStr 0 "high" = some "4" ∧
    profileIdStr 1 p = some "1" := by
  refine ⟨rfl, rfl, rfl, by simp [profileIdStr]⟩

/-- **C10**: in `netint_encode`'s synchronous receive, with headers not yet
cached, a packet whose payload beyond the 16-byte metadata is exactly 65
bytes is consumed as the header cache (`got_headers` set, bytes stored as
extradata) and nothing is returned for it, while a packet of any other
size is returned to the host as a video packet and the header cache stays
unpopulated (`src/netint-encoder.c:1705-1754`). -/
theorem sync_receive_header_packet (st : SessionState) (e : EncodeEnv)
    (hg : st.gotHeaders = false) (ha : e.pktBufAllocOk = true)
    (hr : 16 < e.recvSize) :
    ((e.recvSize - 16).toNat = 65 → e.queuedPkt = none → st.flushing = true →
      netint_encode st false e =
        ({ st with gotHeaders := true, extra := some (e.recvData.take 65) },
         [], .noPacket)) ∧
    ((e.recvSize - 16).toNat ≠ 65 → e.dataAllocOk = true → ∀ hasFrame,
      netint_encode st hasFrame e =
        (st, [], .packet (e.recvData.take (e.recvSize - 16).toNat)
          e.recvPts e.recvDts)) := by
  constructor
  · intro h65 hq hfl
    simp [netint_encode, netintEncodeTail, hg, ha, hr, h65, hq, netintEncodeFlush, hfl]
  · intro h65 hda hasFrame
    simp [netint_encode, hg, ha, hr, h65, hda]

/-- **C10** witness: an 81-byte read (65-byte payload) on a session without
headers is cached instead of returned. -/
theorem sync_receive_header_packet_witness :
    netint_encode { initialSession with flushing := true } false
        { benignEncodeEnv with recvSize := 81, recvData := List.range 81 } =
      ({ initialSession with
          flushing := true, gotHeaders := true,
          extra := some ((List.range 81).take 65) }, [], .noPacket) :=
  (sync_receive_header_packet _ _ rfl rfl (by decide)).1 (by decide) rfl rfl

/-- **C4** (amended): `keyframe_interval_frames` is derived at creation as
`keyint` seconds times fps (1 s at 60 fps gives 60; a non-positive setting
defaults to 2 s), and the only keyframe the core explicitly forces is the
first data frame (`force_key_frame = 1`, IDR picture type) — but the value
is never passed to the SDK: the parameter calls `netint_create` makes are
identical whatever `keyint` is (the value is only computed and logged). -/
theorem keyint_derivation_first_frame_idr :
    (∀ fpsn : Nat, keyintFrames 1 fpsn 1 = fpsn) ∧
    (∀ (k : Int) (fpsn : Nat), k ≤ 0 → keyintFrames k fpsn 1 = 2 * fpsn) ∧
    (∀ (setter : Bool) (ct : Nat) (cfg : NetintSettings) (k : Int) (fpsn fpsd : Nat),
      netintParamCalls setter ct { cfg with keyint := k } fpsn fpsd =
        netintParamCalls setter ct cfg fpsn fpsd) ∧
    (∀ ops i (h : i < (dataFrames (runOps initialSession ops).2).length),
      (((dataFrames (runOps initialSession ops).2).get ⟨i, h⟩).forceKey = true ↔ i = 0) ∧
      (((dataFrames (runOps initialSession ops).2).get ⟨i, h⟩).pictType = 2 ↔ i = 0)) := by
  refine ⟨fun fpsn => ?_, fun k fpsn hk => ?_, fun _ _ _ _ _ _ => rfl, fun ops i h => ?_⟩
  · simp [keyintFrames]
  · simp [keyintFrames, hk]
  · obtain ⟨hspec, -, -, -⟩ := runOps_spec ops initialSession
    rw [dataSpec_get _ _ hspec i h]
    by_cases hi : i = 0 <;> simp [mkDataFrame, initialSession, hi]

/-- **C4** witness: the derivation at 60 fps and the forced IDR on the
first delivered frame of a concrete run. -/
theorem keyint_derivation_first_frame_idr_witness :
    keyintFrames 1 60 1 = 60 ∧
    ((dataFrames (runOps initialSession [SessionOp.encode true benignEncodeEnv]).2).get
      ⟨0, by decide⟩).forceKey = true :=
  ⟨keyint_derivation_first_frame_idr.1 60,
   ((keyint_derivation_first_frame_idr.2.2.2
      [SessionOp.encode true benignEncodeEnv] 0 (by decide)).1).mpr rfl⟩

/-- **C6**: over every sequence of host operations (encode with or without
a frame, destroy) and every pattern of SDK outcomes, the device trace of a
session contains at most one EOS sentinel (flush and destroy paths
combined), and a delivered data frame carries `start_of_stream = 1` exactly
when it is the first data frame delivered. -/
theorem single_sos_single_eos (ops : List SessionOp) :
    eosCount (runOps initialSession ops).2 ≤ 1 ∧
    ∀ i (h : i < (dataFrames (runOps initialSession ops).2).length),
      (((dataFrames (runOps initialSession ops).2).get ⟨i, h⟩).sos = true ↔ i = 0) := by
  obtain ⟨hspec, -, hle, -⟩ := runOps_spec ops initialSession
  refine ⟨by simpa [initialSession] using hle, ?_⟩
  intro i h
  rw [dataSpec_get _ _ hspec i h]
  by_cases hi : i = 0 <;> simp [mkDataFrame, initialSession, hi]

/-- **C6** witness: a concrete run — one frame, then a flush — delivers one
EOS and its first data frame carries `start_of_stream`. -/
theorem single_sos_single_eos_witness :
    eosCount (runOps initialSession
      [SessionOp.encode true benignEncodeEnv,
       SessionOp.encode false benignEncodeEnv]).2 ≤ 1 ∧
    ((dataFrames (runOps initialSession
      [SessionOp.encode true benignEncodeEnv,
       SessionOp.encode false benignEncodeEnv]).2).get ⟨0, by decide⟩).sos = true :=
  ⟨(single_sos_single_eos _).1,
   ((single_sos_single_eos
      [SessionOp.encode true benignEncodeEnv,
       SessionOp.encode false benignEncodeEnv]).2 0 (by decide)).mpr rfl⟩

end NetintT4xx
